import Mathlib

/-!
Shallow embedding of clangd's `ParsedAST.cpp` (the incremental translation-unit
builder): the `ParsedAST::build` orchestration, the `DeclTrackingASTConsumer`
top-level-declaration filter, the `ReplayPreamble` include-replay protocol, the
clang-tidy level adjuster installed via `ASTDiags.setLevelAdjuster`, the
include-fixer query budget, and the `buildAST` entry point.

External collaborators (the compiler instance, source manager, clang-tidy's
suppression predicate, the symbol index) are modelled as environment data:
booleans and lists describing the outcomes those collaborators produce during
one build.
-/

namespace Clangd

/-- Diagnostic severity levels, mirroring `DiagnosticsEngine::Level`. -/
inductive DiagLevel where
  | Ignored
  | Note
  | Warning
  | Error
  | Fatal
  deriving DecidableEq, Repr

/-- A diagnostic as stored by clangd: severity, message, owning check name
(empty when it comes from the core compiler). -/
structure Diag where
  level : DiagLevel
  message : String
  checkName : String
  deriving DecidableEq, Repr

/-- `SrcMgr::CharacteristicKind`: the file-kind tag on an include record. -/
inductive CharacteristicKind where
  | c_User
  | c_System
  | c_ExternCSystem
  deriving DecidableEq, Repr

/-- One include-directive record of `IncludeStructure`: byte offset of the
hash, the written spelling exactly as in the source (with quotes or angle
brackets), the resolved absolute path (empty when resolution failed), and the
file-kind tag. -/
structure Inclusion where
  HashOffset : Nat
  Written : String
  Resolved : String
  FileKind : CharacteristicKind
  deriving DecidableEq, Repr

/-- `IncludeStructure`: the ordered main-file include records. -/
structure IncludeStructure where
  MainFileIncludes : List Inclusion
  deriving DecidableEq, Repr

/-- `MainFileMacros`: macro names observed in the main file. -/
structure MainFileMacros where
  Names : List String
  deriving DecidableEq, Repr

/-- `CanonicalIncludes`: mapping from resolved header path to canonical
header, as an association list. -/
abbrev CanonicalIncludes := List (String × String)

/-- `PreambleData` as consumed (read-only) by the builder: the cached include
structure, macros, canonical includes, and the diagnostics recorded while the
preamble was built. -/
structure PreambleData where
  Includes : IncludeStructure
  Macros : MainFileMacros
  Diags : List Diag
  CanonIncludes : CanonicalIncludes
  deriving DecidableEq, Repr

/-- The `NamedDecl`-specific data of a declaration: whether
`isImplicitTemplateInstantiation` holds for it. -/
structure NamedDeclInfo where
  implicitTemplateInstantiation : Bool
  deriving DecidableEq, Repr

/-- A declaration as seen by `DeclTrackingASTConsumer::HandleTopLevelDecl`:
whether its source location is inside the main file (`isInsideMainFile`),
the `NamedDecl` data when `dyn_cast<NamedDecl>` succeeds, and whether it is
an `ObjCMethodDecl`. -/
structure Decl where
  insideMainFile : Bool
  named : Option NamedDeclInfo
  isObjCMethod : Bool
  deriving DecidableEq, Repr

/-- The C++ guard `dyn_cast<NamedDecl>(D)` followed by
`isImplicitTemplateInstantiation(ND)`: false whenever the declaration is not
a `NamedDecl`. -/
def isImplicitTemplateInstantiation (d : Decl) : Bool :=
  match d.named with
  | some nd => nd.implicitTemplateInstantiation
  | none => false

/-- The loop body of `DeclTrackingASTConsumer::HandleTopLevelDecl`: skip
declarations outside the main file, implicit template instantiations, and
ObjC method declarations; append everything else. -/
def trackDecl (topLevelDecls : List Decl) (d : Decl) : List Decl :=
  if d.insideMainFile = false then topLevelDecls
  else if isImplicitTemplateInstantiation d = true then topLevelDecls
  else if d.isObjCMethod = true then topLevelDecls
  else topLevelDecls ++ [d]

/-- `DeclTrackingASTConsumer::HandleTopLevelDecl`: fold `trackDecl` over one
declaration group, extending the accumulated top-level declarations. -/
def HandleTopLevelDecl (topLevelDecls : List Decl) (dg : List Decl) : List Decl :=
  dg.foldl trackDecl topLevelDecls

/-- Preprocessor events delivered to the registered `PPCallbacks` chain
during preamble replay. -/
inductive PPEvent where
  | inclusionDirective (writtenFilename : String) (angled : Bool)
      (file : Option String) (searchPath relPath : String)
      (fileKind : CharacteristicKind)
  | fileSkipped (file : String) (fileKind : CharacteristicKind)
  | fileNotFound (fileName : String)
  deriving DecidableEq, Repr

/-- Whether a replayed event is an "inclusion observed" notification. -/
def PPEvent.isInclusion : PPEvent → Bool
  | .inclusionDirective .. => true
  | _ => false

/-- The `FileEntry` lookup of `ReplayPreamble::replay`: resolution is
attempted only when the record stores a non-empty resolved path, via the
file manager (modelled as a partial lookup from path to file entry). -/
def resolveFile (getFile : String → Option String) (inc : Inclusion) : Option String :=
  if inc.Resolved ≠ "" then getFile inc.Resolved else none

/-- `WrittenFilename` in `ReplayPreamble::replay`: the written spelling with
its first and last character dropped (`drop_front().drop_back()`). -/
def writtenSpelling (inc : Inclusion) : String :=
  (inc.Written.drop 1).dropRight 1

/-- `Angled` in `ReplayPreamble::replay`: whether the written spelling starts
with an opening angle bracket (`StringRef::startswith` compares the leading
bytes against the pattern, here the single character `<`). -/
def isAngled (inc : Inclusion) : Bool :=
  decide (inc.Written.take 1 = "<")

/-- The events `ReplayPreamble::replay` delivers for one cached include
record: one `InclusionDirective` with the placeholder search/relative paths,
then `FileSkipped` when the target resolved or `FileNotFound` when it did
not. -/
def replayOne (getFile : String → Option String) (inc : Inclusion) : List PPEvent :=
  let file := resolveFile getFile inc
  PPEvent.inclusionDirective (writtenSpelling inc) (isAngled inc) file
      "SearchPath" "RelPath" inc.FileKind ::
    (match file with
     | some f => [PPEvent.fileSkipped f inc.FileKind]
     | none => [PPEvent.fileNotFound (writtenSpelling inc)])

/-- `ReplayPreamble::replay`: deliver the per-record events for every cached
main-file include, in the original textual order. -/
def replay (getFile : String → Option String) : List Inclusion → List PPEvent
  | [] => []
  | inc :: rest => replayOne getFile inc ++ replay getFile rest

/-- The clang-tidy context data used by the level adjuster:
`getCheckName` from a diagnostic ID, and the warnings-as-errors policy
`treatAsError`. -/
structure ClangTidyContext where
  getCheckName : Nat → String
  treatAsError : String → Bool

/-- The per-diagnostic data the level adjuster inspects: the diagnostic ID,
whether a source manager is attached, and whether the location is inside the
main file. -/
structure DiagInfo where
  id : Nat
  hasSourceManager : Bool
  insideMainFile : Bool
  deriving DecidableEq, Repr

/-- The lambda installed by `ASTDiags.setLevelAdjuster`: for a clang-tidy
diagnostic, first escalate Warning to Error when the check is configured as
error (deliberately taking precedence over suppression), then demote to
Ignored when the location is inside the main file and
`shouldSuppressDiagnostic` holds with macro-expansion checking disabled. -/
def adjustLevel (shouldSuppressDiagnostic : DiagLevel → DiagInfo → Bool → Bool)
    (ctx : Option ClangTidyContext) (diagLevel : DiagLevel) (info : DiagInfo) :
    DiagLevel :=
  match ctx with
  | none => diagLevel
  | some c =>
    let checkName := c.getCheckName info.id
    if checkName ≠ "" then
      if diagLevel = DiagLevel.Warning ∧ c.treatAsError checkName = true then
        DiagLevel.Error
      else if (info.hasSourceManager && info.insideMainFile
          && shouldSuppressDiagnostic diagLevel info false) = true then
        DiagLevel.Ignored
      else diagLevel
    else diagLevel

/-- `IndexRequestLimit` passed to the `IncludeFixer` at its construction site
in `ParsedAST::build`. -/
def indexRequestLimit : Nat := 5

/-- Modelled from the spec: the diagnostic-repair layer (`IncludeFixer`,
implemented outside the provided sources) queries the symbol index once per
qualifying unresolved-symbol diagnostic but "enforces a fixed per-build
ceiling on the number of index queries"; once exhausted, "further
unresolved-symbol diagnostics are left unrepaired rather than queried". One
step: issue a query only while the count is below the limit. -/
def fixerStep (limit : Nat) (queries : Nat) (_d : Diag) : Nat :=
  if queries < limit then queries + 1 else queries

/-- Modelled from the spec: total number of index queries the repair layer
issues over a build's sequence of unresolved-symbol diagnostics. -/
def includeFixerQueries (limit : Nat) (unresolvedDiags : List Diag) : Nat :=
  unresolvedDiags.foldl (fixerStep limit) 0

/-- Log events emitted on failure or degraded paths. -/
inductive LogEvent where
  | sessionPrepareFailed (file : String)
  | beginSourceFileFailed (file : String)
  | executeFailed (file : String) (err : String)
  | workingDirFailed
  deriving DecidableEq, Repr

/-- The file identity a log event names, when it names one. -/
def LogEvent.file : LogEvent → Option String
  | .sessionPrepareFailed f => some f
  | .beginSourceFileFailed f => some f
  | .executeFailed f _ => some f
  | .workingDirFailed => none

/-- Whether a log event records a session-start failure. -/
def LogEvent.isSessionStart : LogEvent → Bool
  | .sessionPrepareFailed _ => true
  | .beginSourceFileFailed _ => true
  | _ => false

/-- The environment describing the outcomes of one build's external
collaborators: the main-file identity, whether `prepareCompilerInstance` and
`BeginSourceFile` succeed, the error `Action->Execute()` reports (if any),
the declaration groups delivered to `HandleTopLevelDecl`, the collected
tokens, the fresh (non-preamble) includes and macros the preprocessor
callbacks collect, the diagnostics `ASTDiags.take` yields, and the built-in
system-headers mapping used when no preamble is present. -/
structure BuildEnv where
  filename : String
  prepareOk : Bool
  beginOk : Bool
  executeErr : Option String
  declGroups : List (List Decl)
  tokens : List Nat
  freshIncludes : List Inclusion
  freshMacros : List String
  astDiags : List Diag
  systemHeadersMapping : CanonicalIncludes
  deriving DecidableEq, Repr

/-- The result value, mirroring the `ParsedAST` constructor's fields: the
attached preamble, the token buffer, the merged macros, the filtered local
top-level declarations, the full diagnostics list, the merged include
structure, and the canonical includes. -/
structure ParsedAST where
  Preamble : Option PreambleData
  Tokens : List Nat
  Macros : MainFileMacros
  LocalTopLevelDecls : List Decl
  Diags : List Diag
  Includes : IncludeStructure
  CanonIncludes : CanonicalIncludes
  deriving DecidableEq, Repr

/-- Modelled from the spec: `prepareCompilerInstance` (defined in
`Compiler.cpp`, which is not among the provided sources) opens the
compilation session; per the spec, when the session cannot begin "no partial
unit is produced, a `SessionStartFailure` is signaled, and the event is
logged with the file identity". -/
def prepareCompilerInstance (env : BuildEnv) : Option Unit × List LogEvent :=
  if env.prepareOk = true then (some (), [])
  else (none, [LogEvent.sessionPrepareFailed env.filename])

/-- The diagnostics segment contributed by the preamble: its recorded
diagnostics when a preamble is attached, nothing otherwise. -/
def preambleDiags : Option PreambleData → List Diag
  | some p => p.Diags
  | none => []

/-- `ParsedAST::build`: open the session (fail atomically when that is
impossible), begin the source file (fail atomically and log on failure),
execute the action (logging but not raising an execution failure), filter the
top-level declarations, merge preamble and fresh includes/macros, assemble
the three diagnostics segments in order, and return the unit. -/
def ParsedAST.build (env : BuildEnv) (compilerInvocationDiags : List Diag)
    (preamble : Option PreambleData) : Option ParsedAST × List LogEvent :=
  match prepareCompilerInstance env with
  | (none, lg) => (none, lg)
  | (some _, lg) =>
    if env.beginOk = false then
      (none, lg ++ [LogEvent.beginSourceFileFailed env.filename])
    else
      let execLog : List LogEvent :=
        match env.executeErr with
        | some e => [LogEvent.executeFailed env.filename e]
        | none => []
      let parsedDecls := env.declGroups.foldl HandleTopLevelDecl []
      let includes : IncludeStructure :=
        ⟨(match preamble with
          | some p => p.Includes.MainFileIncludes
          | none => []) ++ env.freshIncludes⟩
      let macros : MainFileMacros :=
        ⟨(match preamble with
          | some p => p.Macros.Names
          | none => []) ++ env.freshMacros⟩
      let canonIncludes :=
        match preamble with
        | some p => p.CanonIncludes
        | none => env.systemHeadersMapping
      let diags := compilerInvocationDiags ++ preambleDiags preamble ++ env.astDiags
      (some { Preamble := preamble, Tokens := env.tokens, Macros := macros,
              LocalTopLevelDecls := parsedDecls, Diags := diags,
              Includes := includes, CanonIncludes := canonIncludes },
       lg ++ execLog)

/-- `buildAST`: the top-level entry point. A failure to set the working
directory to the compile command's directory is logged and the build proceeds
anyway. -/
def buildAST (setWorkingDirFails : Bool) (env : BuildEnv)
    (compilerInvocationDiags : List Diag) (preamble : Option PreambleData) :
    Option ParsedAST × List LogEvent :=
  let wdLog : List LogEvent :=
    if setWorkingDirFails then [LogEvent.workingDirFailed] else []
  let r := ParsedAST.build env compilerInvocationDiags preamble
  (r.fst, wdLog ++ r.snd)

/-- A concrete build environment used to evaluate the theorems on explicit
inputs. -/
def sampleEnv : BuildEnv :=
  { filename := "/clangd-test/main.cpp", prepareOk := true, beginOk := true,
    executeErr := none, declGroups := [], tokens := [],
    freshIncludes := [], freshMacros := [], astDiags := [],
    systemHeadersMapping := [] }

theorem prepareCompilerInstance_eq_of_ok (env : BuildEnv)
    (h : env.prepareOk = true) :
    prepareCompilerInstance env = (some (), []) := by
  simp [prepareCompilerInstance, h]

theorem prepareCompilerInstance_eq_of_fail (env : BuildEnv)
    (h : env.prepareOk = false) :
    prepareCompilerInstance env =
      (none, [LogEvent.sessionPrepareFailed env.filename]) := by
  simp [prepareCompilerInstance, h]

theorem build_eq_of_prepare_fail (env : BuildEnv) (cid : List Diag)
    (pre : Option PreambleData) (h : env.prepareOk = false) :
    ParsedAST.build env cid pre =
      (none, [LogEvent.sessionPrepareFailed env.filename]) := by
  simp [ParsedAST.build, prepareCompilerInstance_eq_of_fail env h]

theorem build_eq_of_begin_fail (env : BuildEnv) (cid : List Diag)
    (pre : Option PreambleData) (h1 : env.prepareOk = true)
    (h2 : env.beginOk = false) :
    ParsedAST.build env cid pre =
      (none, [LogEvent.beginSourceFileFailed env.filename]) := by
  simp [ParsedAST.build, prepareCompilerInstance_eq_of_ok env h1, h2]

theorem build_eq_of_ok (env : BuildEnv) (cid : List Diag)
    (pre : Option PreambleData) (h1 : env.prepareOk = true)
    (h2 : env.beginOk = true) :
    ParsedAST.build env cid pre =
      (some { Preamble := pre, Tokens := env.tokens,
              Macros := ⟨(match pre with
                          | some p => p.Macros.Names
                          | none => []) ++ env.freshMacros⟩,
              LocalTopLevelDecls := env.declGroups.foldl HandleTopLevelDecl [],
              Diags := cid ++ preambleDiags pre ++ env.astDiags,
              Includes := ⟨(match pre with
                            | some p => p.Includes.MainFileIncludes
                            | none => []) ++ env.freshIncludes⟩,
              CanonIncludes := match pre with
                               | some p => p.CanonIncludes
                               | none => env.systemHeadersMapping },
       match env.executeErr with
       | some e => [LogEvent.executeFailed env.filename e]
       | none => []) := by
  simp [ParsedAST.build, prepareCompilerInstance_eq_of_ok env h1, h2]

/-- Claim C1: if the compilation session cannot begin (the compiler instance
cannot be prepared, or `BeginSourceFile` fails), `build` fails atomically: it
returns no `ParsedAST` at all, and the log records a session-start failure
naming the main file. -/
theorem build_session_start_failure_atomic (env : BuildEnv) (cid : List Diag)
    (pre : Option PreambleData)
    (h : env.prepareOk = false ∨ env.beginOk = false) :
    (ParsedAST.build env cid pre).fst = none ∧
    ∃ ev ∈ (ParsedAST.build env cid pre).snd,
      LogEvent.file ev = some env.filename ∧ LogEvent.isSessionStart ev = true := by
  cases hp : env.prepareOk with
  | false =>
    rw [build_eq_of_prepare_fail env cid pre hp]
    exact ⟨rfl, LogEvent.sessionPrepareFailed env.filename,
      List.mem_singleton.2 rfl, rfl, rfl⟩
  | true =>
    have hb : env.beginOk = false := by
      rcases h with h | h
      · rw [hp] at h; cases h
      · exact h
    rw [build_eq_of_begin_fail env cid pre hp hb]
    exact ⟨rfl, LogEvent.beginSourceFileFailed env.filename,
      List.mem_singleton.2 rfl, rfl, rfl⟩

/-- Witness for C1 at a concrete environment whose `BeginSourceFile` fails. -/
theorem build_session_start_failure_atomic_witness :
    (ParsedAST.build { sampleEnv with beginOk := false } [] none).fst = none ∧
    ∃ ev ∈ (ParsedAST.build { sampleEnv with beginOk := false } [] none).snd,
      LogEvent.file ev = some { sampleEnv with beginOk := false }.filename ∧
      LogEvent.isSessionStart ev = true :=
  build_session_start_failure_atomic { sampleEnv with beginOk := false } [] none
    (Or.inr rfl)

/-- Claim C2: whenever `build` produces a result, its diagnostics are exactly
configuration-time diagnostics, then the preamble's diagnostics when a
preamble was attached, then the diagnostics produced while building this
unit, in that order; without a preamble the middle segment is absent. -/
theorem build_diagnostics_three_segments (env : BuildEnv) (cid : List Diag)
    (pre : Option PreambleData) (u : ParsedAST) (lg : List LogEvent)
    (h : ParsedAST.build env cid pre = (some u, lg)) :
    u.Diags = cid ++ preambleDiags pre ++ env.astDiags ∧
    (pre = none → u.Diags = cid ++ env.astDiags) := by
  cases hp : env.prepareOk with
  | false => rw [build_eq_of_prepare_fail env cid pre hp] at h; cases h
  | true =>
    cases hb : env.beginOk with
    | false => rw [build_eq_of_begin_fail env cid pre hp hb] at h; cases h
    | true =>
      rw [build_eq_of_ok env cid pre hp hb] at h
      obtain ⟨hu, -⟩ := Prod.mk.injEq .. ▸ h
      have hu := Option.some.injEq .. ▸ hu
      constructor
      · rw [← hu]
      · intro hnone
        subst hnone
        rw [← hu]
        simp [preambleDiags]

/-- Witness for C2 at a concrete build carrying one configuration diagnostic
and one AST diagnostic, with no preamble. -/
theorem build_diagnostics_three_segments_witness :
    ({ Preamble := none, Tokens := [],
       Macros := ⟨[]⟩, LocalTopLevelDecls := [],
       Diags := [⟨DiagLevel.Error, "bad flag", ""⟩,
                 ⟨DiagLevel.Warning, "unused", ""⟩],
       Includes := ⟨[]⟩, CanonIncludes := [] } : ParsedAST).Diags =
      [⟨DiagLevel.Error, "bad flag", ""⟩] ++ preambleDiags none ++
        { sampleEnv with
          astDiags := [⟨DiagLevel.Warning, "unused", ""⟩] }.astDiags ∧
    ((none : Option PreambleData) = none →
      ({ Preamble := none, Tokens := [],
         Macros := ⟨[]⟩, LocalTopLevelDecls := [],
         Diags := [⟨DiagLevel.Error, "bad flag", ""⟩,
                   ⟨DiagLevel.Warning, "unused", ""⟩],
         Includes := ⟨[]⟩, CanonIncludes := [] } : ParsedAST).Diags =
        [⟨DiagLevel.Error, "bad flag", ""⟩] ++
          { sampleEnv with
            astDiags := [⟨DiagLevel.Warning, "unused", ""⟩] }.astDiags) :=
  build_diagnostics_three_segments
    { sampleEnv with astDiags := [⟨DiagLevel.Warning, "unused", ""⟩] }
    [⟨DiagLevel.Error, "bad flag", ""⟩] none _ _ rfl

theorem mem_trackDecl (acc : List Decl) (x d : Decl) (h : d ∈ trackDecl acc x) :
    d ∈ acc ∨ (d.insideMainFile = true ∧ isImplicitTemplateInstantiation d = false ∧
      d.isObjCMethod = false) := by
  by_cases h1 : x.insideMainFile = false
  · rw [trackDecl, if_pos h1] at h
    exact Or.inl h
  · by_cases h2 : isImplicitTemplateInstantiation x = true
    · rw [trackDecl, if_neg h1, if_pos h2] at h
      exact Or.inl h
    · by_cases h3 : x.isObjCMethod = true
      · rw [trackDecl, if_neg h1, if_neg h2, if_pos h3] at h
        exact Or.inl h
      · rw [trackDecl, if_neg h1, if_neg h2, if_neg h3] at h
        rcases List.mem_append.1 h with hmem | hmem
        · exact Or.inl hmem
        · have hd : d = x := by simpa using hmem
          subst hd
          exact Or.inr ⟨by simpa using h1, by simpa using h2, by simpa using h3⟩

theorem mem_HandleTopLevelDecl (dg : List Decl) (acc : List Decl) (d : Decl)
    (h : d ∈ HandleTopLevelDecl acc dg) :
    d ∈ acc ∨ (d.insideMainFile = true ∧ isImplicitTemplateInstantiation d = false ∧
      d.isObjCMethod = false) := by
  induction dg generalizing acc with
  | nil => exact Or.inl h
  | cons x xs ih =>
    have h' : d ∈ HandleTopLevelDecl (trackDecl acc x) xs := by
      simpa [HandleTopLevelDecl] using h
    rcases ih (trackDecl acc x) h' with hm | hm
    · exact mem_trackDecl acc x d hm
    · exact Or.inr hm

theorem mem_foldl_HandleTopLevelDecl (gs : List (List Decl)) (acc : List Decl)
    (d : Decl) (h : d ∈ gs.foldl HandleTopLevelDecl acc) :
    d ∈ acc ∨ (d.insideMainFile = true ∧ isImplicitTemplateInstantiation d = false ∧
      d.isObjCMethod = false) := by
  induction gs generalizing acc with
  | nil => exact Or.inl h
  | cons g gs ih =>
    have h' : d ∈ gs.foldl HandleTopLevelDecl (HandleTopLevelDecl acc g) := by
      simpa using h
    rcases ih (HandleTopLevelDecl acc g) h' with hm | hm
    · exact mem_HandleTopLevelDecl g acc d hm
    · exact Or.inr hm

/-- Claim C3: every declaration in a build result's top-level declaration set
has its source location inside the main file, and none is an implicit
template instantiation or an ObjC method declaration. -/
theorem build_top_level_decls_main_file_only (env : BuildEnv) (cid : List Diag)
    (pre : Option PreambleData) (u : ParsedAST) (lg : List LogEvent)
    (h : ParsedAST.build env cid pre = (some u, lg)) :
    ∀ d ∈ u.LocalTopLevelDecls,
      d.insideMainFile = true ∧ isImplicitTemplateInstantiation d = false ∧
      d.isObjCMethod = false := by
  intro d hd
  cases hp : env.prepareOk with
  | false => rw [build_eq_of_prepare_fail env cid pre hp] at h; cases h
  | true =>
    cases hb : env.beginOk with
    | false => rw [build_eq_of_begin_fail env cid pre hp hb] at h; cases h
    | true =>
      rw [build_eq_of_ok env cid pre hp hb] at h
      obtain ⟨hu, -⟩ := Prod.mk.injEq .. ▸ h
      have hu := Option.some.injEq .. ▸ hu
      rw [← hu] at hd
      rcases mem_foldl_HandleTopLevelDecl env.declGroups [] d hd with hm | hm
      · cases hm
      · exact hm

/-- Witness for C3 on a concrete build whose declaration groups contain a
main-file declaration, an out-of-main-file declaration, an implicit template
instantiation, and an ObjC method. -/
theorem build_top_level_decls_main_file_only_witness :
    ({ insideMainFile := true, named := some ⟨false⟩,
       isObjCMethod := false } : Decl).insideMainFile = true ∧
    isImplicitTemplateInstantiation
      { insideMainFile := true, named := some ⟨false⟩,
        isObjCMethod := false } = false ∧
    ({ insideMainFile := true, named := some ⟨false⟩,
       isObjCMethod := false } : Decl).isObjCMethod = false :=
  build_top_level_decls_main_file_only
    { sampleEnv with declGroups :=
        [[{ insideMainFile := true, named := some ⟨false⟩, isObjCMethod := false },
          { insideMainFile := false, named := none, isObjCMethod := false },
          { insideMainFile := true, named := some ⟨true⟩, isObjCMethod := false },
          { insideMainFile := true, named := none, isObjCMethod := true }]] }
    [] none
    { Preamble := none, Tokens := [], Macros := ⟨[]⟩,
      LocalTopLevelDecls :=
        [{ insideMainFile := true, named := some ⟨false⟩, isObjCMethod := false }],
      Diags := [], Includes := ⟨[]⟩, CanonIncludes := [] }
    [] (by decide)
    { insideMainFile := true, named := some ⟨false⟩, isObjCMethod := false }
    (by decide)

/-- Claim C7: when the session opened successfully but `Execute` reports an
error, `build` does not fail: the collected declarations, tokens and
diagnostics are still assembled into a returned unit, and the execution
failure is only logged. -/
theorem build_execute_failure_recovered (env : BuildEnv) (cid : List Diag)
    (pre : Option PreambleData) (e : String)
    (h1 : env.prepareOk = true) (h2 : env.beginOk = true)
    (he : env.executeErr = some e) :
    ∃ u, ParsedAST.build env cid pre =
        (some u, [LogEvent.executeFailed env.filename e]) ∧
      u.LocalTopLevelDecls = env.declGroups.foldl HandleTopLevelDecl [] ∧
      u.Tokens = env.tokens ∧
      u.Diags = cid ++ preambleDiags pre ++ env.astDiags := by
  have hb := build_eq_of_ok env cid pre h1 h2
  rw [he] at hb
  exact ⟨_, hb, rfl, rfl, rfl⟩

/-- Witness for C7 at a concrete environment whose `Execute` fails. -/
theorem build_execute_failure_recovered_witness :
    ∃ u, ParsedAST.build { sampleEnv with executeErr := some "parse error" }
        [] none =
        (some u, [LogEvent.executeFailed
          { sampleEnv with executeErr := some "parse error" }.filename
          "parse error"]) ∧
      u.LocalTopLevelDecls =
        { sampleEnv with
          executeErr := some "parse error" }.declGroups.foldl
          HandleTopLevelDecl [] ∧
      u.Tokens = { sampleEnv with executeErr := some "parse error" }.tokens ∧
      u.Diags = [] ++ preambleDiags none ++
        { sampleEnv with executeErr := some "parse error" }.astDiags :=
  build_execute_failure_recovered
    { sampleEnv with executeErr := some "parse error" } [] none "parse error"
    rfl rfl rfl

theorem replayOne_filter_isInclusion (getFile : String → Option String)
    (inc : Inclusion) :
    (replayOne getFile inc).filter PPEvent.isInclusion =
      [PPEvent.inclusionDirective (writtenSpelling inc) (isAngled inc)
        (resolveFile getFile inc) "SearchPath" "RelPath" inc.FileKind] := by
  cases hf : resolveFile getFile inc with
  | none => simp [replayOne, hf, PPEvent.isInclusion]
  | some f => simp [replayOne, hf, PPEvent.isInclusion]

theorem replay_filter_isInclusion (getFile : String → Option String)
    (incs : List Inclusion) :
    (replay getFile incs).filter PPEvent.isInclusion =
      incs.map (fun inc =>
        PPEvent.inclusionDirective (writtenSpelling inc) (isAngled inc)
          (resolveFile getFile inc) "SearchPath" "RelPath" inc.FileKind) := by
  induction incs with
  | nil => rfl
  | cons inc rest ih =>
    simp only [replay, List.filter_append, replayOne_filter_isInclusion,
      List.map_cons, ih]
    rfl

/-- Claim C4: replaying a cached include structure with N main-file records
emits exactly N "inclusion observed" notifications, in original order, each
carrying the record's written spelling and quoted/angled form; a record whose
target does not resolve yields a "file not found" notification for that
entry, and every other record's notification is still delivered. -/
theorem replay_emits_every_cached_include (getFile : String → Option String)
    (incs : List Inclusion) :
    (replay getFile incs).filter PPEvent.isInclusion =
      incs.map (fun inc =>
        PPEvent.inclusionDirective (writtenSpelling inc) (isAngled inc)
          (resolveFile getFile inc) "SearchPath" "RelPath" inc.FileKind) ∧
    ((replay getFile incs).filter PPEvent.isInclusion).length = incs.length ∧
    (∀ inc ∈ incs, resolveFile getFile inc = none →
      PPEvent.fileNotFound (writtenSpelling inc) ∈ replay getFile incs) := by
  refine ⟨replay_filter_isInclusion getFile incs, ?_, ?_⟩
  · rw [replay_filter_isInclusion getFile incs, List.length_map]
  · intro inc hmem hres
    induction incs with
    | nil => cases hmem
    | cons a rest ih =>
      rcases List.mem_cons.1 hmem with hh | hh
      · subst hh
        refine List.mem_append.2 (Or.inl ?_)
        simp [replayOne, hres]
      · exact List.mem_append.2 (Or.inr (ih hh))

/-- Witness for C4 on two concrete records, one resolvable and one not. -/
theorem replay_emits_every_cached_include_witness :
    (replay (fun p => if p = "/usr/include/a.h" then some "a.h entry" else none)
        [⟨0, "\"a.h\"", "/usr/include/a.h", CharacteristicKind.c_User⟩,
         ⟨10, "<gone.h>", "", CharacteristicKind.c_System⟩]).filter
        PPEvent.isInclusion =
      [⟨0, "\"a.h\"", "/usr/include/a.h", CharacteristicKind.c_User⟩,
       ⟨10, "<gone.h>", "", CharacteristicKind.c_System⟩].map
        (fun inc =>
          PPEvent.inclusionDirective (writtenSpelling inc) (isAngled inc)
            (resolveFile
              (fun p => if p = "/usr/include/a.h" then some "a.h entry" else none)
              inc) "SearchPath" "RelPath" inc.FileKind) ∧
    ((replay (fun p => if p = "/usr/include/a.h" then some "a.h entry" else none)
        [⟨0, "\"a.h\"", "/usr/include/a.h", CharacteristicKind.c_User⟩,
         ⟨10, "<gone.h>", "", CharacteristicKind.c_System⟩]).filter
        PPEvent.isInclusion).length = 2 ∧
    (∀ inc ∈ [⟨0, "\"a.h\"", "/usr/include/a.h", CharacteristicKind.c_User⟩,
              (⟨10, "<gone.h>", "", CharacteristicKind.c_System⟩ : Inclusion)],
      resolveFile
        (fun p => if p = "/usr/include/a.h" then some "a.h entry" else none)
        inc = none →
      PPEvent.fileNotFound (writtenSpelling inc) ∈
        replay (fun p => if p = "/usr/include/a.h" then some "a.h entry" else none)
          [⟨0, "\"a.h\"", "/usr/include/a.h", CharacteristicKind.c_User⟩,
           ⟨10, "<gone.h>", "", CharacteristicKind.c_System⟩]) :=
  replay_emits_every_cached_include
    (fun p => if p = "/usr/include/a.h" then some "a.h entry" else none)
    [⟨0, "\"a.h\"", "/usr/include/a.h", CharacteristicKind.c_User⟩,
     ⟨10, "<gone.h>", "", CharacteristicKind.c_System⟩]

/-- Claim C10: every replayed inclusion notification carries the fixed
placeholder strings "SearchPath" and "RelPath" as its search-path and
relative-path fields; the written spelling, angled form, resolved file and
file kind all come from some cached record. -/
theorem replay_search_paths_are_placeholders (getFile : String → Option String)
    (incs : List Inclusion) (w : String) (a : Bool) (f : Option String)
    (sp rp : String) (k : CharacteristicKind)
    (h : PPEvent.inclusionDirective w a f sp rp k ∈ replay getFile incs) :
    sp = "SearchPath" ∧ rp = "RelPath" ∧
    ∃ inc ∈ incs, w = writtenSpelling inc ∧ a = isAngled inc ∧
      f = resolveFile getFile inc ∧ k = inc.FileKind := by
  induction incs with
  | nil => cases h
  | cons inc rest ih =>
    have h' := List.mem_append.1 (by simpa [replay] using h)
    rcases h' with hm | hm
    · cases hf : resolveFile getFile inc with
      | none =>
        simp only [replayOne, hf, List.mem_cons, List.mem_singleton] at hm
        rcases hm with hm | hm
        · obtain ⟨hw, ha, hfe, hsp, hrp, hk⟩ := PPEvent.inclusionDirective.injEq .. ▸ hm
          exact ⟨hsp, hrp, inc, List.mem_cons_self inc rest,
            hw, ha, hfe.trans hf.symm, hk⟩
        · simp at hm
      | some fe =>
        simp only [replayOne, hf, List.mem_cons, List.mem_singleton] at hm
        rcases hm with hm | hm
        · obtain ⟨hw, ha, hfe, hsp, hrp, hk⟩ := PPEvent.inclusionDirective.injEq .. ▸ hm
          exact ⟨hsp, hrp, inc, List.mem_cons_self inc rest,
            hw, ha, hfe.trans hf.symm, hk⟩
        · simp at hm
    · obtain ⟨h1, h2, inc', hmem, hrest⟩ := ih hm
      exact ⟨h1, h2, inc', List.mem_cons_of_mem inc hmem, hrest⟩

/-- Witness for C10 at a concrete replayed record. -/
theorem replay_search_paths_are_placeholders_witness :
    "SearchPath" = "SearchPath" ∧ "RelPath" = "RelPath" ∧
    ∃ inc ∈ [(⟨4, "<vector>", "", CharacteristicKind.c_System⟩ : Inclusion)],
      "vector" = writtenSpelling inc ∧ true = isAngled inc ∧
      (none : Option String) = resolveFile (fun _ => none) inc ∧
      CharacteristicKind.c_System = inc.FileKind :=
  replay_search_paths_are_placeholders (fun _ => none)
    [⟨4, "<vector>", "", CharacteristicKind.c_System⟩]
    "vector" true none "SearchPath" "RelPath" CharacteristicKind.c_System
    (by decide)

/-- Claim C5: a Warning produced by a named pluggable check whose check is
configured to be treated as error ends as Error, whatever the suppression
predicate says — escalation is checked first and takes precedence. -/
theorem adjust_escalation_beats_suppression
    (shouldSuppressDiagnostic : DiagLevel → DiagInfo → Bool → Bool)
    (ctx : ClangTidyContext) (info : DiagInfo)
    (hname : ctx.getCheckName info.id ≠ "")
    (herr : ctx.treatAsError (ctx.getCheckName info.id) = true) :
    adjustLevel shouldSuppressDiagnostic (some ctx) DiagLevel.Warning info =
      DiagLevel.Error := by
  simp [adjustLevel, hname, herr]

/-- Witness for C5 with a suppression predicate that always fires: the
diagnostic still ends as Error. -/
theorem adjust_escalation_beats_suppression_witness :
    adjustLevel (fun _ _ _ => true)
      (some ⟨fun _ => "modernize-use-nullptr", fun _ => true⟩)
      DiagLevel.Warning ⟨7, true, true⟩ = DiagLevel.Error :=
  adjust_escalation_beats_suppression (fun _ _ _ => true)
    ⟨fun _ => "modernize-use-nullptr", fun _ => true⟩ ⟨7, true, true⟩
    (by decide) rfl

/-- Claim C6: a check-owned diagnostic that is not escalated is demoted to
Ignored when its location is inside the main file and the suppression
predicate (queried without following macro expansions) covers it; a
diagnostic outside the main file is never demoted by suppression. -/
theorem adjust_suppression_when_not_escalated
    (shouldSuppressDiagnostic : DiagLevel → DiagInfo → Bool → Bool)
    (ctx : ClangTidyContext) (diagLevel : DiagLevel) (info : DiagInfo)
    (hname : ctx.getCheckName info.id ≠ "")
    (hnot : ¬(diagLevel = DiagLevel.Warning ∧
      ctx.treatAsError (ctx.getCheckName info.id) = true)) :
    (info.hasSourceManager = true → info.insideMainFile = true →
      shouldSuppressDiagnostic diagLevel info false = true →
      adjustLevel shouldSuppressDiagnostic (some ctx) diagLevel info =
        DiagLevel.Ignored) ∧
    (info.insideMainFile = false →
      adjustLevel shouldSuppressDiagnostic (some ctx) diagLevel info =
        diagLevel) := by
  constructor
  · intro h1 h2 h3
    simp [adjustLevel, hname, hnot, h1, h2, h3]
  · intro h1
    simp [adjustLevel, hname, hnot, h1]

/-- Witness for C6: a check-owned Warning on a suppressed main-file line,
check not configured as error, ends as Ignored; the same diagnostic outside
the main file keeps its level. -/
theorem adjust_suppression_when_not_escalated_witness :
    ((⟨3, true, true⟩ : DiagInfo).hasSourceManager = true →
      (⟨3, true, true⟩ : DiagInfo).insideMainFile = true →
      (fun _ _ _ => true : DiagLevel → DiagInfo → Bool → Bool)
        DiagLevel.Warning ⟨3, true, true⟩ false = true →
      adjustLevel (fun _ _ _ => true)
        (some ⟨fun _ => "readability-braces", fun _ => false⟩)
        DiagLevel.Warning ⟨3, true, true⟩ = DiagLevel.Ignored) ∧
    ((⟨3, true, true⟩ : DiagInfo).insideMainFile = false →
      adjustLevel (fun _ _ _ => true)
        (some ⟨fun _ => "readability-braces", fun _ => false⟩)
        DiagLevel.Warning ⟨3, true, true⟩ = DiagLevel.Warning) :=
  adjust_suppression_when_not_escalated (fun _ _ _ => true)
    ⟨fun _ => "readability-braces", fun _ => false⟩ DiagLevel.Warning
    ⟨3, true, true⟩ (by decide) (by simp)

theorem foldl_fixerStep_le (limit : Nat) (l : List Diag) (q : Nat)
    (h : q ≤ limit) : l.foldl (fixerStep limit) q ≤ limit := by
  induction l generalizing q with
  | nil => exact h
  | cons a rest ih =>
    refine ih (fixerStep limit q a) ?_
    unfold fixerStep
    split
    · omega
    · exact h

theorem foldl_fixerStep_saturated (limit : Nat) (l : List Diag) (q : Nat)
    (h : limit ≤ q) : l.foldl (fixerStep limit) q = q := by
  induction l with
  | nil => rfl
  | cons a rest ih =>
    have hstep : fixerStep limit q a = q := by
      unfold fixerStep
      rw [if_neg (Nat.not_lt.2 h)]
    rw [List.foldl_cons, hstep, ih]

/-- Claim C8: the diagnostic-repair layer issues at most 5 index queries per
build, no matter how many unresolved-symbol diagnostics occur; once the
ceiling is reached, later unresolved-symbol diagnostics trigger no further
queries. -/
theorem include_fixer_query_budget (unresolvedDiags extra : List Diag) :
    includeFixerQueries indexRequestLimit unresolvedDiags ≤ 5 ∧
    (5 ≤ includeFixerQueries indexRequestLimit unresolvedDiags →
      includeFixerQueries indexRequestLimit (unresolvedDiags ++ extra) =
        includeFixerQueries indexRequestLimit unresolvedDiags) := by
  constructor
  · exact foldl_fixerStep_le indexRequestLimit unresolvedDiags 0 (by omega)
  · intro h
    unfold includeFixerQueries
    rw [List.foldl_append]
    exact foldl_fixerStep_saturated indexRequestLimit extra _ h

/-- Witness for C8 on seven unresolved-symbol diagnostics: only five queries
are issued, and two more diagnostics add none. -/
theorem include_fixer_query_budget_witness :
    includeFixerQueries indexRequestLimit
        (List.replicate 7 ⟨DiagLevel.Error, "unknown type name", ""⟩) ≤ 5 ∧
    (5 ≤ includeFixerQueries indexRequestLimit
        (List.replicate 7 ⟨DiagLevel.Error, "unknown type name", ""⟩) →
      includeFixerQueries indexRequestLimit
          (List.replicate 7 ⟨DiagLevel.Error, "unknown type name", ""⟩ ++
            List.replicate 2 ⟨DiagLevel.Error, "unknown type name", ""⟩) =
        includeFixerQueries indexRequestLimit
          (List.replicate 7 ⟨DiagLevel.Error, "unknown type name", ""⟩)) :=
  include_fixer_query_budget
    (List.replicate 7 ⟨DiagLevel.Error, "unknown type name", ""⟩)
    (List.replicate 2 ⟨DiagLevel.Error, "unknown type name", ""⟩)

/-- Claim C9: in the top-level entry point, a failure to set the session's
working directory is non-fatal: it is logged and the build proceeds, so the
returned result is exactly the one `ParsedAST.build` produces. -/
theorem working_dir_failure_nonfatal (env : BuildEnv) (cid : List Diag)
    (pre : Option PreambleData) :
    (buildAST true env cid pre).fst = (ParsedAST.build env cid pre).fst ∧
    LogEvent.workingDirFailed ∈ (buildAST true env cid pre).snd ∧
    ((ParsedAST.build env cid pre).fst.isSome = true →
      (buildAST true env cid pre).fst.isSome = true) := by
  refine ⟨rfl, ?_, fun h => h⟩
  simp [buildAST]

/-- Witness for C9 at a concrete environment: the build still returns a unit
although the working directory could not be set. -/
theorem working_dir_failure_nonfatal_witness :
    (buildAST true sampleEnv [] none).fst =
      (ParsedAST.build sampleEnv [] none).fst ∧
    LogEvent.workingDirFailed ∈ (buildAST true sampleEnv [] none).snd ∧
    ((ParsedAST.build sampleEnv [] none).fst.isSome = true →
      (buildAST true sampleEnv [] none).fst.isSome = true) :=
  working_dir_failure_nonfatal sampleEnv [] none

end Clangd
